import Mathlib

/-!
Shallow embedding of the bounce-simulation core of the DVD-Logo-Animation
repository (src/dvd.py), together with theorems settling the specification
claims about it.

The embedding follows src/dvd.py:
  * `AbsoluteBoundingBox`, its `__add__` (`add`) and `__iadd__` (`iadd`);
  * `FrameResolution`;
  * the four move functions `move_southeast`, `move_northeast`,
    `move_northwest`, `move_southwest` — in Python these are dispatched by
    function identity through the module-level `swaps` table, so we model
    the identity of the move function as the inductive `MoveFunction` with
    an `apply` giving each function's body;
  * the four boundary-delta functions `passes_north_boundary`,
    `passes_west_boundary`, `passes_south_boundary`, `passes_east_boundary`,
    likewise as the inductive `BoundaryFunction` with an `apply`;
  * the `swaps` table (`HORIZONTAL` = 0, `VERTICAL` = 1);
  * `velocity_update`, the per-frame step.  In Python it receives the state
    as keyword arguments and returns a dict that the driver merges back into
    the state (`keywords |= velocity_update(**keywords)`), with the `flip`
    key popped with default `False` before the next frame.  We model the
    merged post-step state directly: `velocity_update` returns the new
    `SimState` together with the popped `flip` Boolean.
-/

structure AbsoluteBoundingBox where
  left_x : Int
  right_x : Int
  top_y : Int
  bottom_y : Int
deriving Repr, DecidableEq

namespace AbsoluteBoundingBox

/-- `AbsoluteBoundingBox.__add__`: shift the whole box by a delta. -/
def add (b : AbsoluteBoundingBox) (delta : Int × Int) : AbsoluteBoundingBox :=
  { left_x := b.left_x + delta.1
    right_x := b.right_x + delta.1
    top_y := b.top_y + delta.2
    bottom_y := b.bottom_y + delta.2 }

/-- `AbsoluteBoundingBox.__iadd__`: same shift, but each axis is guarded by
a `delta ≠ 0` test in the source (value-wise equivalent to `add`). -/
def iadd (b : AbsoluteBoundingBox) (delta : Int × Int) : AbsoluteBoundingBox :=
  let b1 := if delta.1 ≠ 0 then
      { b with left_x := b.left_x + delta.1, right_x := b.right_x + delta.1 }
    else b
  if delta.2 ≠ 0 then
    { b1 with top_y := b1.top_y + delta.2, bottom_y := b1.bottom_y + delta.2 }
  else b1

/-- Derived accessor: sprite width. -/
def width (b : AbsoluteBoundingBox) : Int := b.right_x - b.left_x

/-- Derived accessor: sprite height. -/
def height (b : AbsoluteBoundingBox) : Int := b.bottom_y - b.top_y

end AbsoluteBoundingBox

structure FrameResolution where
  width : Int
  height : Int
deriving Repr, DecidableEq

/-- The identity of one of the four move functions of src/dvd.py.  The Python
code passes the functions themselves around and looks them up in `swaps` by
identity; the inductive captures that identity. -/
inductive MoveFunction where
  | move_southeast
  | move_northeast
  | move_northwest
  | move_southwest
deriving Repr, DecidableEq

namespace MoveFunction

/-- The body of each move function: `move_southeast` returns
`current_image_location + (velocity, velocity)`, and so on. -/
def apply : MoveFunction → AbsoluteBoundingBox → Int → AbsoluteBoundingBox
  | move_southeast, b, velocity => b.add (velocity, velocity)
  | move_northeast, b, velocity => b.add (velocity, -velocity)
  | move_northwest, b, velocity => b.add (-1 * velocity, -1 * velocity)
  | move_southwest, b, velocity => b.add (-velocity, velocity)

/-- Horizontal sign component of the direction the move function encodes. -/
def dx : MoveFunction → Int
  | move_southeast => 1
  | move_northeast => 1
  | move_northwest => -1
  | move_southwest => -1

/-- Vertical sign component of the direction the move function encodes
(positive = south = downward, as in the source's raster coordinates). -/
def dy : MoveFunction → Int
  | move_southeast => 1
  | move_northeast => -1
  | move_northwest => -1
  | move_southwest => 1

end MoveFunction

def HORIZONTAL : Nat := 0
def VERTICAL : Nat := 1

/-- The module-level `swaps` table of src/dvd.py: `swaps HORIZONTAL` reverses
the east-west component of a move function, `swaps VERTICAL` the
north-south component. -/
def swaps : Nat → MoveFunction → MoveFunction
  | 0, MoveFunction.move_northeast => MoveFunction.move_northwest
  | 0, MoveFunction.move_southeast => MoveFunction.move_southwest
  | 0, MoveFunction.move_northwest => MoveFunction.move_northeast
  | 0, MoveFunction.move_southwest => MoveFunction.move_southeast
  | _, MoveFunction.move_northeast => MoveFunction.move_southeast
  | _, MoveFunction.move_southeast => MoveFunction.move_northeast
  | _, MoveFunction.move_northwest => MoveFunction.move_southwest
  | _, MoveFunction.move_southwest => MoveFunction.move_northwest

/-- The identity of one of the four boundary-delta functions of src/dvd.py. -/
inductive BoundaryFunction where
  | passes_north_boundary
  | passes_west_boundary
  | passes_south_boundary
  | passes_east_boundary
deriving Repr, DecidableEq

namespace BoundaryFunction

/-- The body of each boundary function.  Each returns an `Int` delta:
`0` means the boundary is not crossed; a nonzero value is the corrective
delta the step adds back to the tentative box. -/
def apply : BoundaryFunction → AbsoluteBoundingBox → FrameResolution → Int
  | passes_north_boundary, b, _ => if b.top_y < 0 then b.top_y else 0
  | passes_west_boundary, b, _ => if b.left_x < 0 then b.left_x else 0
  | passes_south_boundary, b, r => min 0 (r.height - b.bottom_y)
  | passes_east_boundary, b, r => min 0 (r.width - b.right_x)

end BoundaryFunction

/-- The simulation state threaded through the driver loop of src/dvd.py as
keyword arguments (the `flip` key excluded: it is popped each frame and
returned separately by our `velocity_update`). -/
structure SimState where
  next_location_velocity : MoveFunction
  current_north_south_boundary_crossed : BoundaryFunction
  current_east_west_boundary_crossed : BoundaryFunction
  reverse_north_south_boundary_crossed : BoundaryFunction
  reverse_east_west_boundary_crossed : BoundaryFunction
  current_image_location : AbsoluteBoundingBox
deriving Repr, DecidableEq

/-- `velocity_update` of src/dvd.py, with the driver's dict merge applied:
the result is the state after `keywords |= velocity_update(**keywords)`,
paired with the value of `keywords.pop("flip", False)` (the `flip` key is
present, and `True`, exactly when the east-west branch fired). -/
def velocity_update (s : SimState) (frame_resolution : FrameResolution)
    (velocity : Int) : SimState × Bool :=
  let new_location :=
    s.next_location_velocity.apply s.current_image_location velocity
  let north_boundary_delta :=
    s.current_north_south_boundary_crossed.apply new_location frame_resolution
  let east_boundary_delta :=
    s.current_east_west_boundary_crossed.apply new_location frame_resolution
  if north_boundary_delta = 0 ∧ east_boundary_delta = 0 then
    ({ s with current_image_location := new_location }, false)
  else
    let corrected :=
      new_location.iadd (east_boundary_delta, north_boundary_delta)
    let s1 :=
      if north_boundary_delta ≠ 0 then
        { s with
          current_image_location := corrected
          current_north_south_boundary_crossed :=
            s.reverse_north_south_boundary_crossed
          reverse_north_south_boundary_crossed :=
            s.current_north_south_boundary_crossed
          next_location_velocity := swaps VERTICAL s.next_location_velocity }
      else { s with current_image_location := corrected }
    let s2 :=
      if east_boundary_delta ≠ 0 then
        { s1 with
          current_east_west_boundary_crossed :=
            s1.reverse_east_west_boundary_crossed
          reverse_east_west_boundary_crossed :=
            s1.current_east_west_boundary_crossed
          next_location_velocity := swaps HORIZONTAL s1.next_location_velocity }
      else s1
    (s2, east_boundary_delta ≠ 0)

/-- The tentative (pre-correction) box a step computes first. -/
def tentative (s : SimState) (velocity : Int) : AbsoluteBoundingBox :=
  s.next_location_velocity.apply s.current_image_location velocity

/-- The north-south boundary delta a step computes on its tentative box. -/
def northDelta (s : SimState) (frame_resolution : FrameResolution)
    (velocity : Int) : Int :=
  s.current_north_south_boundary_crossed.apply (tentative s velocity)
    frame_resolution

/-- The east-west boundary delta a step computes on its tentative box. -/
def eastDelta (s : SimState) (frame_resolution : FrameResolution)
    (velocity : Int) : Int :=
  s.current_east_west_boundary_crossed.apply (tentative s velocity)
    frame_resolution

/-- Iterated step: the state after `n` frames of the driver loop. -/
def run (frame_resolution : FrameResolution) (velocity : Int)
    (s : SimState) : Nat → SimState
  | 0 => s
  | n + 1 => (velocity_update (run frame_resolution velocity s n)
      frame_resolution velocity).1

/-- A box is inside the canvas: the containment condition of the spec. -/
def inBounds (b : AbsoluteBoundingBox) (r : FrameResolution) : Prop :=
  0 ≤ b.left_x ∧ 0 ≤ b.top_y ∧ b.right_x ≤ r.width ∧ b.bottom_y ≤ r.height

instance (b : AbsoluteBoundingBox) (r : FrameResolution) :
    Decidable (inBounds b r) := by
  unfold inBounds; infer_instance

/-! ### Concrete states used in scenarios, witnesses and counterexamples -/

def res3840 : FrameResolution := { width := 3840, height := 2160 }

/-- The spec's concrete scenario start state: canvas 3840x2160, sprite
200x100 centered at (1820,1030)-(2020,1130), moving southeast, with the two
boundary checks matching that direction (as set up in src/dvd.py main). -/
def scenarioState : SimState :=
  { next_location_velocity := MoveFunction.move_southeast
    current_north_south_boundary_crossed :=
      BoundaryFunction.passes_south_boundary
    current_east_west_boundary_crossed :=
      BoundaryFunction.passes_east_boundary
    reverse_north_south_boundary_crossed :=
      BoundaryFunction.passes_north_boundary
    reverse_east_west_boundary_crossed :=
      BoundaryFunction.passes_west_boundary
    current_image_location :=
      { left_x := 1820, right_x := 2020, top_y := 1030, bottom_y := 1130 } }

/-- In-bounds state moving northeast whose next step crosses the north edge. -/
def northBounceState : SimState :=
  { next_location_velocity := MoveFunction.move_northeast
    current_north_south_boundary_crossed :=
      BoundaryFunction.passes_north_boundary
    current_east_west_boundary_crossed :=
      BoundaryFunction.passes_east_boundary
    reverse_north_south_boundary_crossed :=
      BoundaryFunction.passes_south_boundary
    reverse_east_west_boundary_crossed :=
      BoundaryFunction.passes_west_boundary
    current_image_location :=
      { left_x := 100, right_x := 300, top_y := 5, bottom_y := 105 } }

/-- In-bounds state moving northwest whose next step crosses the west edge. -/
def westBounceState : SimState :=
  { next_location_velocity := MoveFunction.move_northwest
    current_north_south_boundary_crossed :=
      BoundaryFunction.passes_north_boundary
    current_east_west_boundary_crossed :=
      BoundaryFunction.passes_west_boundary
    reverse_north_south_boundary_crossed :=
      BoundaryFunction.passes_south_boundary
    reverse_east_west_boundary_crossed :=
      BoundaryFunction.passes_east_boundary
    current_image_location :=
      { left_x := 5, right_x := 205, top_y := 500, bottom_y := 600 } }

/-- In-bounds state near the bottom-right corner moving southeast whose next
step crosses the south and east edges simultaneously. -/
def cornerState : SimState :=
  { next_location_velocity := MoveFunction.move_southeast
    current_north_south_boundary_crossed :=
      BoundaryFunction.passes_south_boundary
    current_east_west_boundary_crossed :=
      BoundaryFunction.passes_east_boundary
    reverse_north_south_boundary_crossed :=
      BoundaryFunction.passes_north_boundary
    reverse_east_west_boundary_crossed :=
      BoundaryFunction.passes_west_boundary
    current_image_location :=
      { left_x := 3635, right_x := 3835, top_y := 2055, bottom_y := 2155 } }

/-! ### Helper lemmas -/

theorem iadd_eq_add (b : AbsoluteBoundingBox) (d : Int × Int) :
    b.iadd d = b.add d := by
  unfold AbsoluteBoundingBox.iadd AbsoluteBoundingBox.add
  split_ifs with h1 h2 h2 <;> simp_all

theorem add_add (b : AbsoluteBoundingBox) (d1 d2 : Int × Int) :
    (b.add d1).add d2 = b.add (d1.1 + d2.1, d1.2 + d2.2) := by
  simp [AbsoluteBoundingBox.add, add_assoc]

theorem apply_eq_add (m : MoveFunction) (b : AbsoluteBoundingBox) (v : Int) :
    m.apply b v = b.add (m.dx * v, m.dy * v) := by
  cases m <;> simp [MoveFunction.apply, MoveFunction.dx, MoveFunction.dy]

theorem swaps_horizontal_dx (m : MoveFunction) :
    (swaps HORIZONTAL m).dx = -m.dx := by
  cases m <;> rfl

theorem swaps_horizontal_dy (m : MoveFunction) :
    (swaps HORIZONTAL m).dy = m.dy := by
  cases m <;> rfl

theorem swaps_vertical_dx (m : MoveFunction) :
    (swaps VERTICAL m).dx = m.dx := by
  cases m <;> rfl

theorem swaps_vertical_dy (m : MoveFunction) :
    (swaps VERTICAL m).dy = -m.dy := by
  cases m <;> rfl

theorem dx_ne_neg_dx (m : MoveFunction) : ¬ m.dx = -m.dx := by
  cases m <;> decide

/-- Every step's box is a rigid translation of the previous box. -/
theorem velocity_update_box_shift (s : SimState) (r : FrameResolution)
    (v : Int) :
    ∃ d : Int × Int,
      (velocity_update s r v).1.current_image_location =
        s.current_image_location.add d := by
  simp only [velocity_update, apply_eq_add, iadd_eq_add, add_add]
  split_ifs <;> exact ⟨_, rfl⟩

/-! ### Claim theorems -/

/-- C1: the claimed containment invariant ("starting from any in-bounds box
... the box produced by every step again satisfies left ≥ 0, top ≥ 0,
right ≤ canvas.width, bottom ≤ canvas.height") fails on the code: from the
in-bounds state `northBounceState` (top edge at 5, moving northeast with
velocity 10), one `velocity_update` step returns a box with top_y = -10 —
`passes_north_boundary` returns the negative tentative `top_y` itself, and
the step adds it to the already-overshot tentative box, doubling the
overshoot instead of clamping to 0 as the south/east boundary functions do.
This theorem evaluates the code at the failing input. -/
theorem north_bounce_breaks_containment :
    inBounds northBounceState.current_image_location res3840 ∧
    (velocity_update northBounceState res3840 10).1.current_image_location.top_y
      = -10 ∧
    ¬ inBounds
        (velocity_update northBounceState res3840 10).1.current_image_location
        res3840 := by decide

/-- C2: the claimed clamp-to-boundary-exact policy ("the returned box lies
exactly tangent to the crossed boundary: the crossed coordinate equals 0 for
north/west crossings") fails on the code for west crossings: from
`westBounceState` (left edge at 5, moving northwest with velocity 10), the
tentative box crosses the west edge (left_x = -5 < 0) and the direction's dx
component is duly negated, but the returned box has left_x = -10, not 0 —
the step overshoots the canvas on the crossed axis.  (East and south
crossings do clamp exactly; the bug is confined to `passes_north_boundary`
and `passes_west_boundary`, which return the coordinate with the wrong
sign.)  This theorem evaluates the code at the failing input. -/
theorem west_bounce_not_tangent :
    (tentative westBounceState 10).left_x < 0 ∧
    (velocity_update westBounceState res3840 10).1.next_location_velocity.dx =
      -westBounceState.next_location_velocity.dx ∧
    (velocity_update westBounceState res3840 10).1.current_image_location.left_x
      = -10 ∧
    (velocity_update westBounceState res3840 10).1.current_image_location.left_x
      ≠ 0 := by decide

/-- C3: flip signalling — a step reports flip_triggered = true if and only if
the horizontal (dx) component of the direction reversed sign during that
step; a step that reverses only dy, or reverses nothing, reports no flip. -/
theorem flip_triggered_iff_dx_reversed (s : SimState) (r : FrameResolution)
    (v : Int) :
    (velocity_update s r v).2 = true ↔
      (velocity_update s r v).1.next_location_velocity.dx =
        -s.next_location_velocity.dx := by
  simp only [velocity_update]
  split_ifs <;>
    simp_all [swaps_horizontal_dx, swaps_vertical_dx, dx_ne_neg_dx]

/-- C4: corner-hit correctness — whenever a step crosses both the
north-south and the east-west boundary (both boundary deltas computed on the
tentative box are nonzero), both the dx and the dy components of the
direction are negated within that single step. -/
theorem corner_hit_flips_both (s : SimState) (r : FrameResolution) (v : Int)
    (hn : northDelta s r v ≠ 0) (he : eastDelta s r v ≠ 0) :
    (velocity_update s r v).1.next_location_velocity.dx =
      -s.next_location_velocity.dx ∧
    (velocity_update s r v).1.next_location_velocity.dy =
      -s.next_location_velocity.dy := by
  simp only [northDelta, eastDelta, tentative] at hn he
  simp only [velocity_update]
  split_ifs <;>
    first
      | (exfalso; tauto)
      | simp [swaps_horizontal_dx, swaps_horizontal_dy,
          swaps_vertical_dx, swaps_vertical_dy]

/-- C4 witness: from `cornerState` both boundary deltas are nonzero, and the
single step negates both direction components (southeast to northwest). -/
theorem corner_hit_flips_both_witness :
    northDelta cornerState res3840 10 ≠ 0 ∧
    eastDelta cornerState res3840 10 ≠ 0 ∧
    ((velocity_update cornerState res3840 10).1.next_location_velocity.dx =
        -cornerState.next_location_velocity.dx ∧
      (velocity_update cornerState res3840 10).1.next_location_velocity.dy =
        -cornerState.next_location_velocity.dy) :=
  ⟨by decide, by decide,
    corner_hit_flips_both cornerState res3840 10 (by decide) (by decide)⟩

/-- C5: direction validity — the move function produced by every step encodes
one of the four diagonal unit-sign vectors (+1,+1), (+1,-1), (-1,-1),
(-1,+1); never a zero or axis-aligned vector. -/
theorem direction_always_diagonal (s : SimState) (r : FrameResolution)
    (v : Int) :
    ((velocity_update s r v).1.next_location_velocity.dx,
      (velocity_update s r v).1.next_location_velocity.dy) = (1, 1) ∨
    ((velocity_update s r v).1.next_location_velocity.dx,
      (velocity_update s r v).1.next_location_velocity.dy) = (1, -1) ∨
    ((velocity_update s r v).1.next_location_velocity.dx,
      (velocity_update s r v).1.next_location_velocity.dy) = (-1, -1) ∨
    ((velocity_update s r v).1.next_location_velocity.dx,
      (velocity_update s r v).1.next_location_velocity.dy) = (-1, 1) := by
  cases h : (velocity_update s r v).1.next_location_velocity <;>
    simp [MoveFunction.dx, MoveFunction.dy]

/-- C6: determinism — the step is a pure function of its explicit inputs, so
two runs from identical (initial state, canvas, velocity) produce identical
position sequences for any frame count. -/
theorem run_deterministic (r1 r2 : FrameResolution) (v1 v2 : Int)
    (s1 s2 : SimState)
    (h : s1 = s2 ∧ r1 = r2 ∧ v1 = v2) (n : Nat) :
    (List.range n).map
        (fun k => (run r1 v1 s1 k).current_image_location) =
      (List.range n).map
        (fun k => (run r2 v2 s2 k).current_image_location) := by
  obtain ⟨hs, hr, hv⟩ := h
  subst hs; subst hr; subst hv; rfl

/-- C6 witness: two runs from the spec's scenario state agree on the first
five positions. -/
theorem run_deterministic_witness :
    (scenarioState = scenarioState ∧ res3840 = res3840 ∧ (10 : Int) = 10) ∧
    (List.range 5).map
        (fun k => (run res3840 10 scenarioState k).current_image_location) =
      (List.range 5).map
        (fun k => (run res3840 10 scenarioState k).current_image_location) :=
  ⟨⟨rfl, rfl, rfl⟩,
    run_deterministic res3840 res3840 10 10 scenarioState scenarioState
      ⟨rfl, rfl, rfl⟩ 5⟩

set_option maxRecDepth 4000 in
/-- C7: concrete east-bounce scenario — canvas 3840x2160, sprite 200x100,
velocity 10, initial box (1820,1030)-(2020,1130), direction southeast.
Step 183 is the first step whose tentative right_x exceeds 3840 (tentative
right_x ≤ 3840 for all 182 earlier steps, and 3850 at step 183); at that
step the direction's dx component flips to -1 and the resulting box has
right_x = 3840 exactly. -/
theorem east_bounce_scenario :
    ((List.range 182).all fun k =>
      (tentative (run res3840 10 scenarioState k) 10).right_x ≤ 3840) = true ∧
    (tentative (run res3840 10 scenarioState 182) 10).right_x > 3840 ∧
    (run res3840 10 scenarioState 183).next_location_velocity.dx = -1 ∧
    (run res3840 10 scenarioState 183).current_image_location.right_x =
      3840 := by
  decide

/-- C8: tentative-position boundary test — the step evaluates its boundary
functions on the tentative box obtained by adding (dx·velocity, dy·velocity)
to the current box, and each boundary function reports a crossing (nonzero
delta) exactly when the tentative box satisfies the strict inequality for
its edge: top_y < 0 (north), bottom_y > canvas.height (south), left_x < 0
(west), right_x > canvas.width (east); a box exactly tangent to an edge is
not a crossing. -/
theorem boundary_tests_strict_on_tentative (b : AbsoluteBoundingBox)
    (r : FrameResolution) :
    (BoundaryFunction.passes_north_boundary.apply b r ≠ 0 ↔ b.top_y < 0) ∧
    (BoundaryFunction.passes_south_boundary.apply b r ≠ 0 ↔
      b.bottom_y > r.height) ∧
    (BoundaryFunction.passes_west_boundary.apply b r ≠ 0 ↔ b.left_x < 0) ∧
    (BoundaryFunction.passes_east_boundary.apply b r ≠ 0 ↔
      b.right_x > r.width) ∧
    (∀ (s : SimState) (v : Int),
      tentative s v =
        s.current_image_location.add
          (s.next_location_velocity.dx * v, s.next_location_velocity.dy * v)) := by
  refine ⟨?_, ?_, ?_, ?_, ?_⟩
  · simp only [BoundaryFunction.apply]; split_ifs with h <;> omega
  · simp only [BoundaryFunction.apply]; omega
  · simp only [BoundaryFunction.apply]; split_ifs with h <;> omega
  · simp only [BoundaryFunction.apply]; omega
  · intro s v; rw [tentative, apply_eq_add]

/-- C9: sprite size preservation — the displacement operators `add` and
`iadd` preserve the box's width and height, and so does every
`velocity_update` step; consequently left ≤ right and top ≤ bottom are
preserved by the step. -/
theorem step_preserves_size (s : SimState) (r : FrameResolution) (v : Int)
    (hw : s.current_image_location.left_x ≤ s.current_image_location.right_x)
    (hh : s.current_image_location.top_y ≤ s.current_image_location.bottom_y) :
    (∀ (b : AbsoluteBoundingBox) (d : Int × Int),
        (b.add d).width = b.width ∧ (b.add d).height = b.height ∧
        (b.iadd d).width = b.width ∧ (b.iadd d).height = b.height) ∧
    (velocity_update s r v).1.current_image_location.width =
      s.current_image_location.width ∧
    (velocity_update s r v).1.current_image_location.height =
      s.current_image_location.height ∧
    (velocity_update s r v).1.current_image_location.left_x ≤
      (velocity_update s r v).1.current_image_location.right_x ∧
    (velocity_update s r v).1.current_image_location.top_y ≤
      (velocity_update s r v).1.current_image_location.bottom_y := by
  have hadd : ∀ (b : AbsoluteBoundingBox) (d : Int × Int),
      (b.add d).width = b.width ∧ (b.add d).height = b.height := by
    intro b d
    simp [AbsoluteBoundingBox.add, AbsoluteBoundingBox.width,
      AbsoluteBoundingBox.height]
  obtain ⟨d, hd⟩ := velocity_update_box_shift s r v
  refine ⟨fun b d => ⟨(hadd b d).1, (hadd b d).2, ?_, ?_⟩, ?_, ?_, ?_, ?_⟩
  · rw [iadd_eq_add]; exact (hadd b d).1
  · rw [iadd_eq_add]; exact (hadd b d).2
  · rw [hd]; exact (hadd _ d).1
  · rw [hd]; exact (hadd _ d).2
  · rw [hd]; simp [AbsoluteBoundingBox.add]; omega
  · rw [hd]; simp [AbsoluteBoundingBox.add]; omega

/-- C9 witness: one step from `cornerState` (a well-formed box) preserves
the sprite's width and height. -/
theorem step_preserves_size_witness :
    cornerState.current_image_location.left_x ≤
      cornerState.current_image_location.right_x ∧
    cornerState.current_image_location.top_y ≤
      cornerState.current_image_location.bottom_y ∧
    ((velocity_update cornerState res3840 10).1.current_image_location.width =
        cornerState.current_image_location.width ∧
      (velocity_update cornerState res3840 10).1.current_image_location.height =
        cornerState.current_image_location.height) :=
  ⟨by decide, by decide,
    ⟨(step_preserves_size cornerState res3840 10 (by decide) (by decide)).2.1,
      (step_preserves_size cornerState res3840 10 (by decide) (by decide)).2.2.1⟩⟩

/-- C10: no-crossing frame property — when the tentative box crosses no
boundary (both boundary deltas are 0), the step returns exactly the state
with only the box replaced by the tentative box: the move function and all
four boundary-check functions are unchanged, and no flip is signalled. -/
theorem no_crossing_keeps_state (s : SimState) (r : FrameResolution) (v : Int)
    (hn : northDelta s r v = 0) (he : eastDelta s r v = 0) :
    velocity_update s r v =
      ({ s with current_image_location := tentative s v }, false) := by
  simp only [northDelta, eastDelta, tentative] at hn he
  simp only [velocity_update, tentative]
  rw [if_pos ⟨hn, he⟩]

/-- C10 witness: from the centered scenario state neither boundary is
crossed and the step only moves the box. -/
theorem no_crossing_keeps_state_witness :
    northDelta scenarioState res3840 10 = 0 ∧
    eastDelta scenarioState res3840 10 = 0 ∧
    velocity_update scenarioState res3840 10 =
      ({ scenarioState with
          current_image_location := tentative scenarioState 10 }, false) :=
  ⟨by decide, by decide,
    no_crossing_keeps_state scenarioState res3840 10 (by decide) (by decide)⟩
